import Mathlib

/-!
Verification development for the searxng-simple-mcp search pipeline.

The embedding follows the two source components:

* `searxng_client.py` — `SearxngResult` / `SearxngResponse` (pydantic schema),
  `SearxNGClient.search` (request-parameter construction, upstream outcome
  handling, strict response validation) and `SearxNGClient.format_results`
  (the loose display-only formatter over a generic mapping).
* `server.py` — the `web_search` tool: `result_count` validation, truncation
  of the validated results, and the text/json rendering branch.

Modelling conventions: JSON numbers (Python int/float) are modelled as
rationals; the effectful HTTP call is modelled by an explicit
`UpstreamOutcome` value describing how the upstream interaction ended, and
`search` / `web_search` become pure functions of that outcome; Python
exceptions become `Except` errors.
-/

namespace SearxngMcp

/-- JSON values, as produced by `response.json()`.  Numbers are modelled as
rationals, covering both Python ints and floats. -/
inductive Json where
  | null : Json
  | str : String → Json
  | num : ℚ → Json
  | bool : Bool → Json
  | arr : List Json → Json
  | obj : List (String × Json) → Json

/-- Key lookup in a JSON object (Python dict lookup). -/
def getField : List (String × Json) → String → Option Json
  | [], _ => none
  | (k, v) :: rest, key => if k = key then some v else getField rest key

/-- A `str`-typed pydantic field accepts exactly a JSON string. -/
def asStr : Json → Option String
  | .str s => some s
  | _ => none

/-- An `int`-typed pydantic field accepts an integral JSON number. -/
def asInt : Json → Option Int
  | .num q => if q.den = 1 then some q.num else none
  | _ => none

/-- A `float`-typed pydantic field accepts any JSON number. -/
def asRat : Json → Option ℚ
  | .num q => some q
  | _ => none

/-- A `list[str]`-typed field: a JSON array whose elements are all strings. -/
def asStrList : Json → Option (List String)
  | .arr xs => xs.mapM asStr
  | _ => none

/-- A `list[int]`-typed field: a JSON array of integral numbers. -/
def asIntList : Json → Option (List Int)
  | .arr xs => xs.mapM asInt
  | _ => none

/-- A plain JSON array. -/
def asArr : Json → Option (List Json)
  | .arr xs => some xs
  | _ => none

/-- One validated SearxNG search result (`SearxngResult` in
`searxng_client.py`): every field except `thumbnail` and `published_date`
is required. -/
structure SearxngResult where
  url : String
  title : String
  content : String
  thumbnail : Option Json
  engine : String
  template : String
  parsed_url : List String
  img_src : String
  priority : String
  engines : List String
  positions : List Int
  score : ℚ
  category : String
  published_date : Option Json

/-- The validated SearxNG API response (`SearxngResponse` in
`searxng_client.py`). -/
structure SearxngResponse where
  query : String
  number_of_results : Int
  results : List SearxngResult

/-- A required typed field: missing key or wrongly typed value is a
validation error. -/
def reqTyped {α : Type} (conv : Json → Option α)
    (fields : List (String × Json)) (key : String) : Except String α :=
  match getField fields key with
  | none => Except.error (key ++ " missing")
  | some v =>
    match conv v with
    | some a => Except.ok a
    | none => Except.error (key ++ " wrong type")

/-- Modelled from the spec: strict field-by-field validation of one result
object against the `SearxngResult` schema declared in `searxng_client.py`
(the validation machinery itself is the pydantic library, outside this
repository's source; the spec calls it "a strict, not lenient, parser").
All twelve required fields must be present with the declared type;
`thumbnail` and `publishedDate` are optional. -/
def parseSearxngResult : Json → Except String SearxngResult
  | .obj fields =>
    match reqTyped asStr fields "url" with
    | .error e => .error e
    | .ok url =>
    match reqTyped asStr fields "title" with
    | .error e => .error e
    | .ok title =>
    match reqTyped asStr fields "content" with
    | .error e => .error e
    | .ok content =>
    match reqTyped asStr fields "engine" with
    | .error e => .error e
    | .ok engine =>
    match reqTyped asStr fields "template" with
    | .error e => .error e
    | .ok template =>
    match reqTyped asStrList fields "parsed_url" with
    | .error e => .error e
    | .ok parsed_url =>
    match reqTyped asStr fields "img_src" with
    | .error e => .error e
    | .ok img_src =>
    match reqTyped asStr fields "priority" with
    | .error e => .error e
    | .ok priority =>
    match reqTyped asStrList fields "engines" with
    | .error e => .error e
    | .ok engines =>
    match reqTyped asIntList fields "positions" with
    | .error e => .error e
    | .ok positions =>
    match reqTyped asRat fields "score" with
    | .error e => .error e
    | .ok score =>
    match reqTyped asStr fields "category" with
    | .error e => .error e
    | .ok category =>
      Except.ok
        ⟨url, title, content, getField fields "thumbnail", engine, template,
          parsed_url, img_src, priority, engines, positions, score, category,
          getField fields "publishedDate"⟩
  | _ => Except.error "result is not an object"

/-- Validate every element of the `results` array; the first failure fails
the whole list. -/
def parseResults : List Json → Except String (List SearxngResult)
  | [] => Except.ok []
  | j :: rest =>
    match parseSearxngResult j with
    | .error e => .error e
    | .ok r =>
      match parseResults rest with
      | .error e => .error e
      | .ok rs => Except.ok (r :: rs)

/-- Modelled from the spec: strict validation of the whole response body
against the `SearxngResponse` schema of `searxng_client.py` (`query`,
`number_of_results`, `results` all required). -/
def parseSearxngResponse : Json → Except String SearxngResponse
  | .obj fields =>
    match reqTyped asStr fields "query" with
    | .error e => .error e
    | .ok query =>
      match reqTyped asInt fields "number_of_results" with
      | .error e => .error e
      | .ok n =>
        match reqTyped asArr fields "results" with
        | .error e => .error e
        | .ok resultsJson =>
          match parseResults resultsJson with
          | .error e => .error e
          | .ok results => Except.ok ⟨query, n, results⟩
  | _ => Except.error "response is not an object"

/-- `",".join(categories)`. -/
def joinComma (xs : List String) : String := String.intercalate "," xs

/-- The upstream GET query parameters built by `SearxNGClient.search`
(lines 78–93 of `searxng_client.py`).  The `if categories:` /
`if time_range:` / `if language:` guards are Python truthiness tests, so an
empty list and an empty string are skipped like `None`. -/
def buildParams (query : String) (categories : Option (List String))
    (language : Option String) (time_range : Option String) :
    List (String × String) :=
  [("q", query), ("format", "json")]
    ++ (match categories with
        | some (c :: cs) => [("categories", joinComma (c :: cs))]
        | _ => [])
    ++ (match time_range with
        | some t => if t = "" then [] else [("time_range", t)]
        | none => [])
    ++ (match language with
        | some l => if l = "" then [] else [("language", l)]
        | none => [])

/-- The cause recorded inside the unified search failure. -/
inductive FailureCause where
  | timeout : FailureCause
  | connectionError : FailureCause
  | httpStatus : Nat → FailureCause
  | jsonDecode : FailureCause
  | schemaValidation : String → FailureCause

/-- The single unified failure kind raised by `SearxNGClient.search`: the
`except Exception` handler wraps every failure into one `ValueError`
carrying the underlying cause. -/
structure SearchError where
  cause : FailureCause

/-- The body of an upstream 2xx/other response: either undecodable JSON or
a decoded JSON value. -/
inductive HttpBody where
  | invalidJson : HttpBody
  | jsonBody : Json → HttpBody

/-- How the upstream HTTP interaction ended; this replaces the effectful
`httpx` call in the embedding. -/
inductive UpstreamOutcome where
  | timeout : UpstreamOutcome
  | connectionError : UpstreamOutcome
  | response : Nat → HttpBody → UpstreamOutcome

/-- `response.raise_for_status()` succeeds exactly on 2xx statuses. -/
def is2xx (status : Nat) : Bool := 200 ≤ status && status < 300

/-- Outcome handling of `SearxNGClient.search` (lines 95–116 of
`searxng_client.py`): timeout, connection failure, non-2xx status and JSON
decode failure all become the unified `SearchError`; a decoded body is
validated strictly, and only a fully validated `SearxngResponse` is ever
returned. -/
def searchOutcome : UpstreamOutcome → Except SearchError SearxngResponse
  | .timeout => Except.error ⟨.timeout⟩
  | .connectionError => Except.error ⟨.connectionError⟩
  | .response status body =>
    if is2xx status then
      match body with
      | .invalidJson => Except.error ⟨.jsonDecode⟩
      | .jsonBody v =>
        match parseSearxngResponse v with
        | .ok resp => Except.ok resp
        | .error msg => Except.error ⟨.schemaValidation msg⟩
    else Except.error ⟨.httpStatus status⟩

/-- The output format of the `web_search` tool
(`Literal["text", "json"]`). -/
inductive ResultFormat where
  | text : ResultFormat
  | json : ResultFormat
deriving DecidableEq

/-- The recognized time-range tokens
(`Literal["day", "week", "month", "year"]`). -/
inductive TimeRange where
  | day : TimeRange
  | week : TimeRange
  | month : TimeRange
  | year : TimeRange
deriving DecidableEq

/-- The string token a `TimeRange` stands for. -/
def TimeRange.token : TimeRange → String
  | .day => "day"
  | .week => "week"
  | .month => "month"
  | .year => "year"

/-- The arguments of one `web_search` tool invocation. -/
structure WebSearchArgs where
  query : String
  result_count : Int
  categories : Option (List String)
  language : Option String
  time_range : Option TimeRange
  result_format : ResultFormat

/-- The value returned by `web_search`: a text rendering or the structured
result records. -/
inductive ToolOutput where
  | text : String → ToolOutput
  | json : List SearxngResult → ToolOutput

/-- Failures surfaced at the tool boundary. -/
inductive ToolError where
  | invalidArgument : String → ToolError
  | searchError : SearchError → ToolError

/-- One entry of the text rendering in `web_search` (lines 110–114 of
`server.py`): the numbered markdown-link line, then an indented line with
`content[:200] + "..."`. -/
def formatEntry (i : Nat) (r : SearxngResult) : String :=
  toString i ++ ". [" ++ r.title ++ "](" ++ r.url ++ ")\n   "
    ++ (r.content.take 200 ++ "...")

/-- The text rendering of the selected results: entries numbered from 1
(`enumerate(results, 1)`) joined by `"\n\n"`. -/
def renderText (results : List SearxngResult) : String :=
  String.intercalate "\n\n"
    ((List.enumFrom 1 results).map (fun p => formatEntry p.1 p.2))

/-- The `web_search` tool body (lines 84–116 of `server.py`) as a function
of the upstream outcome.  The second component is the upstream GET request
that was issued (`none` when no network call was made): `result_count ≤ 0`
is rejected before the search; otherwise the search runs, the validated
results are truncated with `[:result_count]`, and the format branch picks
the structured or the text rendering. -/
def webSearch (args : WebSearchArgs) (upstream : UpstreamOutcome) :
    Except ToolError ToolOutput × Option (List (String × String)) :=
  if args.result_count ≤ 0 then
    (Except.error (ToolError.invalidArgument "result_count must be greater than 0"), none)
  else
    let request := buildParams args.query args.categories args.language
      (args.time_range.map TimeRange.token)
    match searchOutcome upstream with
    | .error e => (Except.error (ToolError.searchError e), some request)
    | .ok resp =>
      let results := resp.results.take args.result_count.toNat
      match args.result_format with
      | .json => (Except.ok (ToolOutput.json results), some request)
      | .text => (Except.ok (ToolOutput.text (renderText results)), some request)

/-- Modelled from the spec: the hosting runtime checks the raw `time_range`
argument against the `Literal["day", "week", "month", "year"]` annotation
of `web_search` (line 73 of `server.py`) and recognizes exactly these four
tokens; the checking machinery itself (FastMCP/pydantic argument
validation) is outside this repository's source. -/
def parseTimeRangeToken (t : String) : Option TimeRange :=
  if t = "day" then some TimeRange.day
  else if t = "week" then some TimeRange.week
  else if t = "month" then some TimeRange.month
  else if t = "year" then some TimeRange.year
  else none

/-- Modelled from the spec: dispatch of a raw tool invocation — the host
validates the `time_range` token before the tool body runs, failing fast
with no network call on an unrecognized token. -/
def dispatchWebSearch (query : String) (result_count : Int)
    (categories : Option (List String)) (language : Option String)
    (time_range_token : Option String) (result_format : ResultFormat)
    (upstream : UpstreamOutcome) :
    Except ToolError ToolOutput × Option (List (String × String)) :=
  match time_range_token with
  | none => webSearch ⟨query, result_count, categories, language, none, result_format⟩ upstream
  | some t =>
    match parseTimeRangeToken t with
    | some tr =>
      webSearch ⟨query, result_count, categories, language, some tr, result_format⟩ upstream
    | none => (Except.error (ToolError.invalidArgument "invalid time_range"), none)

/-- One entry of the generic mapping consumed by
`SearxNGClient.format_results`: every field is optional, `publishedDate`
is kept as its display string and `score` as a rational. -/
structure LooseResult where
  title : Option String
  url : Option String
  content : Option String
  publishedDate : Option String
  score : Option ℚ

/-- The generic mapping consumed by `SearxNGClient.format_results`. -/
structure LooseData where
  query : Option String
  number_of_results : Option Int
  results : Option (List LooseResult)

/-- The number of hundredths in `q`, rounded to the nearest integer with
ties to even — the rounding of Python's two-decimal fixed-point
formatting, computed on the reduced numerator and denominator. -/
def hundredths (q : ℚ) : Int :=
  let n : Int := 100 * q.num
  let d : Int := (q.den : Int)
  let f := n.fdiv d
  let r := n.fmod d
  if 2 * r < d then f
  else if d < 2 * r then f + 1
  else if f % 2 = 0 then f else f + 1

/-- Two-decimal fixed-point rendering of a rational
(Python's `f"{score:.2f}"`, with floats modelled as rationals). -/
def fmt2 (q : ℚ) : String :=
  let c := hundredths q
  let sign := if c < 0 then "-" else ""
  let a := c.natAbs
  let fp := a % 100
  sign ++ toString (a / 100) ++ "." ++ (if fp < 10 then "0" else "") ++ toString fp

/-- One formatted entry of `format_results` (lines 147–160 of
`searxng_client.py`): placeholders for absent title/url/content, then
optional Date and Score lines exactly when those keys are present. -/
def looseEntry (i : Nat) (r : LooseResult) : String :=
  let base := toString i ++ ". " ++ r.title.getD "No title"
    ++ "\n   URL: " ++ r.url.getD "No URL"
    ++ "\n   " ++ r.content.getD "No description"
  let base := match r.publishedDate with
    | some d => base ++ "\n   Date: " ++ d
    | none => base
  match r.score with
  | some s => base ++ "\n   Score: " ++ fmt2 s
  | none => base

/-- The header lines of `format_results` (lines 134–143 of
`searxng_client.py`): the echoed query when present, and the
`number_of_results` estimate only when it is positive. -/
def looseHeader (data : LooseData) : List String :=
  (match data.query with
    | some q => ["Query: " ++ q]
    | none => []) ++
  (match data.number_of_results with
    | some n => if 0 < n then ["Found approximately " ++ toString n ++ " results"] else []
    | none => [])

/-- `SearxNGClient.format_results` (lines 118–166 of
`searxng_client.py`): the loose display-only formatter over a generic
mapping.  An empty or absent results list yields the placeholder string;
otherwise the header lines are joined with `"\n"` and the numbered entries
with `"\n\n"`. -/
def format_results (data : LooseData) : String :=
  match data.results.getD [] with
  | [] => "No results found."
  | r :: rs =>
    String.intercalate "\n" (looseHeader data) ++ "\n\n"
      ++ String.intercalate "\n\n"
        ((List.enumFrom 1 (r :: rs)).map (fun p => looseEntry p.1 p.2))

/-- The twelve required fields of the `SearxngResult` schema. -/
def requiredResultKeys : List String :=
  ["url", "title", "content", "engine", "template", "parsed_url",
   "img_src", "priority", "engines", "positions", "score", "category"]

/-- Whether a JSON value has the type the `SearxngResult` schema declares
for a given required key. -/
def resultFieldTypeOk (key : String) (v : Json) : Bool :=
  if key = "parsed_url" ∨ key = "engines" then (asStrList v).isSome
  else if key = "positions" then (asIntList v).isSome
  else if key = "score" then (asRat v).isSome
  else (asStr v).isSome

/-- A complete upstream result object, used as concrete test data. -/
def sampleResultJson (title url content : String) : Json :=
  Json.obj [("url", Json.str url), ("title", Json.str title),
    ("content", Json.str content), ("engine", Json.str "google"),
    ("template", Json.str "default.html"),
    ("parsed_url", Json.arr [Json.str "http", Json.str "a"]),
    ("img_src", Json.str ""), ("priority", Json.str ""),
    ("engines", Json.arr [Json.str "google"]),
    ("positions", Json.arr [Json.num 1]),
    ("score", Json.num 1), ("category", Json.str "general")]

/-- A 2xx upstream body with two complete results. -/
def sampleBody : Json :=
  Json.obj [("query", Json.str "cats"), ("number_of_results", Json.num 2),
    ("results", Json.arr [sampleResultJson "Cat facts" "http://a" "x",
                          sampleResultJson "Cat pics" "http://b" "short"])]

/-- The validated record `sampleResultJson` parses to. -/
def sampleResult (title url content : String) : SearxngResult :=
  ⟨url, title, content, none, "google", "default.html", ["http", "a"], "", "",
    ["google"], [1], 1, "general", none⟩

/-- The validated response `sampleBody` parses to. -/
def sampleResp : SearxngResponse :=
  ⟨"cats", 2,
   [sampleResult "Cat facts" "http://a" "x",
    sampleResult "Cat pics" "http://b" "short"]⟩

/-- A 2xx upstream body with an empty results list. -/
def emptyBody : Json :=
  Json.obj [("query", Json.str "dogs"), ("number_of_results", Json.num 0),
    ("results", Json.arr [])]

/-- An upstream result object whose `engine` key is missing (Scenario E). -/
def missingEngineResult : List (String × Json) :=
  [("url", Json.str "http://a"), ("title", Json.str "Cat facts"),
   ("content", Json.str "x"), ("template", Json.str "default.html"),
   ("parsed_url", Json.arr []), ("img_src", Json.str ""),
   ("priority", Json.str ""), ("engines", Json.arr []),
   ("positions", Json.arr []), ("score", Json.num 1),
   ("category", Json.str "general")]

/-- C3: every upstream interaction ending in a timeout, connection failure,
non-2xx status or JSON-decode failure makes `search` fail with the single
unified failure kind carrying the underlying cause; no partial response is
returned. -/
theorem claim_c3 :
    (searchOutcome UpstreamOutcome.timeout
      = Except.error ⟨FailureCause.timeout⟩) ∧
    (searchOutcome UpstreamOutcome.connectionError
      = Except.error ⟨FailureCause.connectionError⟩) ∧
    (∀ (status : Nat) (body : HttpBody), is2xx status = false →
      searchOutcome (UpstreamOutcome.response status body)
        = Except.error ⟨FailureCause.httpStatus status⟩) ∧
    (∀ status : Nat, is2xx status = true →
      searchOutcome (UpstreamOutcome.response status HttpBody.invalidJson)
        = Except.error ⟨FailureCause.jsonDecode⟩) := by
  refine ⟨rfl, rfl, ?_, ?_⟩ <;> intros <;> simp [searchOutcome, *]

/-- Witness for C3 at a 404 response and at a 200 response with an
undecodable body. -/
theorem claim_c3_witness :
    searchOutcome (UpstreamOutcome.response 404 HttpBody.invalidJson)
      = Except.error ⟨FailureCause.httpStatus 404⟩ ∧
    searchOutcome (UpstreamOutcome.response 200 HttpBody.invalidJson)
      = Except.error ⟨FailureCause.jsonDecode⟩ :=
  ⟨claim_c3.2.2.1 404 HttpBody.invalidJson (by decide),
   claim_c3.2.2.2 200 (by decide)⟩

/-- C4: `result_count ≤ 0` is rejected with a validation failure before
rendering and before any upstream network call, for every format and every
upstream behaviour. -/
theorem claim_c4 : ∀ (args : WebSearchArgs) (upstream : UpstreamOutcome),
    args.result_count ≤ 0 →
    webSearch args upstream
      = (Except.error (ToolError.invalidArgument "result_count must be greater than 0"),
         none) := by
  intro args upstream h
  simp [webSearch, h]

/-- Witness for C4 at `result_count = 0` (Scenario C). -/
theorem claim_c4_witness :
    webSearch ⟨"cats", 0, none, none, none, ResultFormat.json⟩ UpstreamOutcome.timeout
      = (Except.error (ToolError.invalidArgument "result_count must be greater than 0"),
         none) :=
  claim_c4 ⟨"cats", 0, none, none, none, ResultFormat.json⟩ UpstreamOutcome.timeout
    (by decide)

/-- C6: an unrecognized `time_range` token fails fast with an invalid
argument failure before any network call. -/
theorem claim_c6 : ∀ (query : String) (result_count : Int)
    (categories : Option (List String)) (language : Option String)
    (t : String) (result_format : ResultFormat) (upstream : UpstreamOutcome),
    t ∉ ["day", "week", "month", "year"] →
    dispatchWebSearch query result_count categories language (some t)
        result_format upstream
      = (Except.error (ToolError.invalidArgument "invalid time_range"), none) := by
  intro q rc cats lang t fmt up ht
  simp only [List.mem_cons, List.not_mem_nil, or_false, not_or] at ht
  have h1 : parseTimeRangeToken t = none := by
    simp [parseTimeRangeToken, ht.1, ht.2.1, ht.2.2.1, ht.2.2.2]
  simp [dispatchWebSearch, h1]

/-- Witness for C6 at the unrecognized token "yesterday". -/
theorem claim_c6_witness :
    dispatchWebSearch "cats" 5 none none (some "yesterday") ResultFormat.text
        UpstreamOutcome.timeout
      = (Except.error (ToolError.invalidArgument "invalid time_range"), none) :=
  claim_c6 "cats" 5 none none "yesterday" ResultFormat.text UpstreamOutcome.timeout
    (by decide)

/-- C7 counterexample: as stated, the claim fails — a present-but-empty
`categories` list (and a present-but-empty `language` string) is dropped
by the Python truthiness guard, so no `categories` (resp. `language`)
parameter is sent. -/
theorem claim_c7_counterexample :
    ¬ (∀ (query : String) (categories : Option (List String))
        (language : Option String) (time_range : Option String),
        (("format", "json") ∈ buildParams query categories language time_range) ∧
        (∀ cs, categories = some cs →
          ("categories", joinComma cs) ∈ buildParams query categories language time_range) ∧
        (∀ l, language = some l →
          ("language", l) ∈ buildParams query categories language time_range)) := by
  intro h
  have h2 := (h "cats" (some []) (some "") none).2.1 [] rfl
  revert h2
  decide

/-- C7 (amended): every upstream request carries the fixed `format=json`
parameter regardless of the requested output format; `categories`, when
present and non-empty, is joined into one comma-separated parameter;
`language`, when present and non-empty, is passed through verbatim. -/
theorem claim_c7 : ∀ (query : String) (categories : Option (List String))
    (language : Option String) (time_range : Option String),
    (("format", "json") ∈ buildParams query categories language time_range) ∧
    (∀ cs, categories = some cs → cs ≠ [] →
      ("categories", joinComma cs) ∈ buildParams query categories language time_range) ∧
    (∀ l, language = some l → l ≠ "" →
      ("language", l) ∈ buildParams query categories language time_range) ∧
    (∀ (args : WebSearchArgs) (upstream : UpstreamOutcome), 0 < args.result_count →
      (webSearch args upstream).2
        = some (buildParams args.query args.categories args.language
            (args.time_range.map TimeRange.token))) := by
  intro q cats lang tr
  refine ⟨by simp [buildParams], ?_, ?_, ?_⟩
  · rintro cs rfl hne
    cases cs with
    | nil => exact absurd rfl hne
    | cons c cs2 => simp [buildParams]
  · rintro l rfl hne
    simp [buildParams, hne]
  · intro args up h
    have h2 : ¬ args.result_count ≤ 0 := by omega
    simp only [webSearch, h2, if_false]
    cases searchOutcome up with
    | error e => rfl
    | ok resp => cases args.result_format <;> rfl

/-- Witness for C7 with two categories, a language and a time range. -/
theorem claim_c7_witness :
    (("format", "json")
      ∈ buildParams "cats" (some ["general", "images"]) (some "en") (some "day")) ∧
    (("categories", "general,images")
      ∈ buildParams "cats" (some ["general", "images"]) (some "en") (some "day")) ∧
    (("language", "en")
      ∈ buildParams "cats" (some ["general", "images"]) (some "en") (some "day")) :=
  ⟨(claim_c7 "cats" (some ["general", "images"]) (some "en") (some "day")).1,
   (claim_c7 "cats" (some ["general", "images"]) (some "en") (some "day")).2.1
     ["general", "images"] rfl (by decide),
   (claim_c7 "cats" (some ["general", "images"]) (some "en") (some "day")).2.2.1
     "en" rfl (by decide)⟩

/-- C10: supplying `categories` as an empty list omits the `categories`
parameter entirely — the request is identical to one with no categories at
all. -/
theorem claim_c10 : ∀ (query : String) (language : Option String)
    (time_range : Option String),
    buildParams query (some []) language time_range
      = buildParams query none language time_range ∧
    ∀ v : String, ("categories", v) ∉ buildParams query (some []) language time_range := by
  intro q lang tr
  refine ⟨rfl, ?_⟩
  intro v hv
  rcases lang with _ | l <;> rcases tr with _ | t
  · simp [buildParams] at hv
  · by_cases ht : t = "" <;> simp [buildParams, ht] at hv
  · by_cases hl : l = "" <;> simp [buildParams, hl] at hv
  · by_cases ht : t = "" <;> by_cases hl : l = "" <;> simp [buildParams, ht, hl] at hv

/-- Witness for C10 at a concrete request with an empty categories list. -/
theorem claim_c10_witness :
    buildParams "cats" (some []) (some "en") none
      = buildParams "cats" none (some "en") none ∧
    ("categories", "") ∉ buildParams "cats" (some []) (some "en") none :=
  ⟨(claim_c10 "cats" (some "en") none).1, (claim_c10 "cats" (some "en") none).2 ""⟩

/-- C1: for a validated response and `result_count = N > 0`, the selection
is exactly the first `min N L` results in upstream order; when `N` exceeds
`L` all results are selected with no error and no padding; with the json
format the selected records are returned unmodified. -/
theorem claim_c1 : ∀ (args : WebSearchArgs) (upstream : UpstreamOutcome)
    (resp : SearxngResponse),
    0 < args.result_count →
    searchOutcome upstream = Except.ok resp →
    args.result_format = ResultFormat.json →
    (webSearch args upstream).1
      = Except.ok (ToolOutput.json (resp.results.take args.result_count.toNat)) ∧
    (resp.results.take args.result_count.toNat).length
      = min args.result_count.toNat resp.results.length ∧
    (resp.results.length ≤ args.result_count.toNat →
      resp.results.take args.result_count.toNat = resp.results) := by
  intro args up resp hc hs hf
  have h2 : ¬ args.result_count ≤ 0 := by omega
  refine ⟨by simp [webSearch, h2, hs, hf], by simp [List.length_take], ?_⟩
  intro hle
  exact List.take_of_length_le hle

/-- Witness for C1 (Scenario B): two available results, five requested —
the full two-element record list is returned unmodified. -/
theorem claim_c1_witness :
    (webSearch ⟨"cats", 5, none, none, none, ResultFormat.json⟩
        (UpstreamOutcome.response 200 (HttpBody.jsonBody sampleBody))).1
      = Except.ok (ToolOutput.json sampleResp.results) ∧
    sampleResp.results.length = 2 := by
  have h := claim_c1 ⟨"cats", 5, none, none, none, ResultFormat.json⟩
    (UpstreamOutcome.response 200 (HttpBody.jsonBody sampleBody)) sampleResp
    (by decide) rfl rfl
  exact ⟨h.1.trans rfl, rfl⟩

/-- C8: on a validated response with zero results, the strict rendering
path returns an empty record list (json) or the empty string (text); the
"No results found." placeholder is never produced on this path. -/
theorem claim_c8 : ∀ (args : WebSearchArgs) (upstream : UpstreamOutcome)
    (resp : SearxngResponse),
    0 < args.result_count →
    searchOutcome upstream = Except.ok resp →
    resp.results = [] →
    ((args.result_format = ResultFormat.json →
        (webSearch args upstream).1 = Except.ok (ToolOutput.json [])) ∧
     (args.result_format = ResultFormat.text →
        (webSearch args upstream).1 = Except.ok (ToolOutput.text "")) ∧
     (∀ s : String, (webSearch args upstream).1 = Except.ok (ToolOutput.text s) →
        s ≠ "No results found.")) := by
  intro args up resp hc hs hr
  have h2 : ¬ args.result_count ≤ 0 := by omega
  have hrend : renderText ([] : List SearxngResult) = "" := rfl
  refine ⟨?_, ?_, ?_⟩
  · intro hf; simp [webSearch, h2, hs, hf, hr]
  · intro hf; simp [webSearch, h2, hs, hf, hr, hrend]
  · intro s hsout
    cases hf : args.result_format
    · simp [webSearch, h2, hs, hf, hr, hrend] at hsout
      subst hsout
      decide
    · simp [webSearch, h2, hs, hf, hr] at hsout

/-- Witness for C8 at an upstream body with an empty results array and the
text format. -/
theorem claim_c8_witness :
    (webSearch ⟨"dogs", 3, none, none, none, ResultFormat.text⟩
        (UpstreamOutcome.response 200 (HttpBody.jsonBody emptyBody))).1
      = Except.ok (ToolOutput.text "") := by
  have h := claim_c8 ⟨"dogs", 3, none, none, none, ResultFormat.text⟩
    (UpstreamOutcome.response 200 (HttpBody.jsonBody emptyBody)) ⟨"dogs", 0, []⟩
    (by decide) rfl rfl
  exact h.2.1 rfl

/-- Mapping over an enumeration starting at `n` is mapping over positions:
the element at offset `j` is paired with counter `n + j`. -/
theorem enumFrom_map_eq_finRange_map {α β : Type} (f : Nat → α → β) :
    ∀ (n : Nat) (l : List α),
      (List.enumFrom n l).map (fun p => f p.1 p.2)
        = (List.finRange l.length).map (fun j => f (n + j.1) (l.get j)) := by
  intro n l
  induction l generalizing n with
  | nil => rfl
  | cons a t ih =>
    simp only [List.enumFrom, List.map_cons, List.length_cons,
      List.finRange_succ_eq_map, List.map_map]
    congr 1
    rw [ih (n + 1)]
    apply List.map_congr_left
    intro j _
    simp only [Function.comp_apply, Fin.val_succ, List.get_cons_succ]
    congr 1
    omega

/-- C5: the text rendering of a non-empty selection is the entries at
1-based positions `i`, each a markdown-link line `i. [title](url)` followed
by an indented line holding the first 200 characters of the content with
the "..." suffix appended unconditionally, joined by one blank line and
with no trailing separator. -/
theorem claim_c5 : ∀ rs : List SearxngResult, rs ≠ [] →
    renderText rs
      = String.intercalate "\n\n"
          ((List.finRange rs.length).map (fun j =>
            toString (j.1 + 1) ++ ". [" ++ (rs.get j).title ++ "]("
              ++ (rs.get j).url ++ ")\n   "
              ++ ((rs.get j).content.take 200 ++ "..."))) := by
  intro rs _
  unfold renderText
  rw [enumFrom_map_eq_finRange_map (fun i r => formatEntry i r) 1 rs]
  refine congrArg (String.intercalate "\n\n") ?_
  apply List.map_congr_left
  intro j _
  simp only [formatEntry]
  rw [Nat.add_comm]

set_option maxRecDepth 8192 in
/-- Witness for C5 on the two sample results; the second content is
shorter than 200 characters and still receives the "..." suffix. -/
theorem claim_c5_witness :
    renderText sampleResp.results
      = "1. [Cat facts](http://a)\n   x...\n\n2. [Cat pics](http://b)\n   short..." := by
  rw [claim_c5 sampleResp.results (List.cons_ne_nil _ _)]
  rfl

/-- A successful required-field read means the key is present and the
converter accepts its value. -/
theorem reqTyped_ok {α : Type} (conv : Json → Option α)
    (fields : List (String × Json)) (key : String) (a : α)
    (h : reqTyped conv fields key = Except.ok a) :
    ∃ v, getField fields key = some v ∧ (conv v).isSome = true := by
  unfold reqTyped at h
  split at h
  · simp at h
  rename_i v hg
  split at h
  · rename_i b hc
    exact ⟨v, hg, by rw [hc]; rfl⟩
  · simp at h

/-- If a result object validates, every required key is present with a
value of the declared type. -/
theorem parseResult_ok_field (fields : List (String × Json)) (r : SearxngResult)
    (h : parseSearxngResult (Json.obj fields) = Except.ok r) :
    ∀ key ∈ requiredResultKeys,
      ∃ v, getField fields key = some v ∧ resultFieldTypeOk key v = true := by
  intro key hk
  simp only [parseSearxngResult] at h
  cases h1 : reqTyped asStr fields "url" with
  | error e => rw [h1] at h; simp at h
  | ok url =>
  rw [h1] at h
  cases h2 : reqTyped asStr fields "title" with
  | error e => rw [h2] at h; simp at h
  | ok title =>
  rw [h2] at h
  cases h3 : reqTyped asStr fields "content" with
  | error e => rw [h3] at h; simp at h
  | ok content =>
  rw [h3] at h
  cases h4 : reqTyped asStr fields "engine" with
  | error e => rw [h4] at h; simp at h
  | ok engine =>
  rw [h4] at h
  cases h5 : reqTyped asStr fields "template" with
  | error e => rw [h5] at h; simp at h
  | ok template =>
  rw [h5] at h
  cases h6 : reqTyped asStrList fields "parsed_url" with
  | error e => rw [h6] at h; simp at h
  | ok parsed_url =>
  rw [h6] at h
  cases h7 : reqTyped asStr fields "img_src" with
  | error e => rw [h7] at h; simp at h
  | ok img_src =>
  rw [h7] at h
  cases h8 : reqTyped asStr fields "priority" with
  | error e => rw [h8] at h; simp at h
  | ok priority =>
  rw [h8] at h
  cases h9 : reqTyped asStrList fields "engines" with
  | error e => rw [h9] at h; simp at h
  | ok engines =>
  rw [h9] at h
  cases h10 : reqTyped asIntList fields "positions" with
  | error e => rw [h10] at h; simp at h
  | ok positions =>
  rw [h10] at h
  cases h11 : reqTyped asRat fields "score" with
  | error e => rw [h11] at h; simp at h
  | ok score =>
  rw [h11] at h
  cases h12 : reqTyped asStr fields "category" with
  | error e => rw [h12] at h; simp at h
  | ok category =>
  fin_cases hk
  · obtain ⟨v, hv, hs⟩ := reqTyped_ok asStr fields "url" url h1
    exact ⟨v, hv, by simpa [resultFieldTypeOk] using hs⟩
  · obtain ⟨v, hv, hs⟩ := reqTyped_ok asStr fields "title" title h2
    exact ⟨v, hv, by simpa [resultFieldTypeOk] using hs⟩
  · obtain ⟨v, hv, hs⟩ := reqTyped_ok asStr fields "content" content h3
    exact ⟨v, hv, by simpa [resultFieldTypeOk] using hs⟩
  · obtain ⟨v, hv, hs⟩ := reqTyped_ok asStr fields "engine" engine h4
    exact ⟨v, hv, by simpa [resultFieldTypeOk] using hs⟩
  · obtain ⟨v, hv, hs⟩ := reqTyped_ok asStr fields "template" template h5
    exact ⟨v, hv, by simpa [resultFieldTypeOk] using hs⟩
  · obtain ⟨v, hv, hs⟩ := reqTyped_ok asStrList fields "parsed_url" parsed_url h6
    exact ⟨v, hv, by simpa [resultFieldTypeOk] using hs⟩
  · obtain ⟨v, hv, hs⟩ := reqTyped_ok asStr fields "img_src" img_src h7
    exact ⟨v, hv, by simpa [resultFieldTypeOk] using hs⟩
  · obtain ⟨v, hv, hs⟩ := reqTyped_ok asStr fields "priority" priority h8
    exact ⟨v, hv, by simpa [resultFieldTypeOk] using hs⟩
  · obtain ⟨v, hv, hs⟩ := reqTyped_ok asStrList fields "engines" engines h9
    exact ⟨v, hv, by simpa [resultFieldTypeOk] using hs⟩
  · obtain ⟨v, hv, hs⟩ := reqTyped_ok asIntList fields "positions" positions h10
    exact ⟨v, hv, by simpa [resultFieldTypeOk] using hs⟩
  · obtain ⟨v, hv, hs⟩ := reqTyped_ok asRat fields "score" score h11
    exact ⟨v, hv, by simpa [resultFieldTypeOk] using hs⟩
  · obtain ⟨v, hv, hs⟩ := reqTyped_ok asStr fields "category" category h12
    exact ⟨v, hv, by simpa [resultFieldTypeOk] using hs⟩

/-- One invalid element fails the validation of the whole results array. -/
theorem parseResults_fail (j : Json)
    (hfail : ∀ r, parseSearxngResult j ≠ Except.ok r) :
    ∀ (js : List Json), j ∈ js → ∀ rs, parseResults js ≠ Except.ok rs := by
  intro js
  induction js with
  | nil => intro hj; cases hj
  | cons a t ih =>
    intro hj rs hrs
    simp only [parseResults] at hrs
    cases ha : parseSearxngResult a with
    | error e => rw [ha] at hrs; simp at hrs
    | ok r =>
      rw [ha] at hrs
      cases hb : parseResults t with
      | error e => rw [hb] at hrs; simp at hrs
      | ok rs2 =>
        rcases List.mem_cons.1 hj with rfl | hj2
        · exact hfail _ ha
        · exact ih hj2 _ hb

/-- If the `results` array fails validation, the whole response fails. -/
theorem parseResponse_fail (respFields : List (String × Json))
    (resultsJson : List Json)
    (hres : getField respFields "results" = some (Json.arr resultsJson))
    (hlist : ∀ rs, parseResults resultsJson ≠ Except.ok rs) :
    ∀ resp, parseSearxngResponse (Json.obj respFields) ≠ Except.ok resp := by
  intro resp h
  simp only [parseSearxngResponse] at h
  split at h
  · simp at h
  rename_i q h1
  split at h
  · simp at h
  rename_i n h2
  split at h
  · simp at h
  rename_i rjs h3
  have h4 : reqTyped asArr respFields "results" = Except.ok resultsJson := by
    simp [reqTyped, hres, asArr]
  rw [h4] at h3
  injection h3 with h3
  subst h3
  split at h
  · simp at h
  rename_i rs h5
  exact hlist rs h5

/-- C2: a 2xx body in which some result object misses a required field or
carries a wrongly typed value fails the whole call with a
schema-validation failure; no partial results are surfaced. -/
theorem claim_c2 : ∀ (respFields : List (String × Json))
    (resultsJson : List Json) (rf : List (String × Json)) (key : String),
    getField respFields "results" = some (Json.arr resultsJson) →
    Json.obj rf ∈ resultsJson →
    key ∈ requiredResultKeys →
    (getField rf key = none ∨
      ∃ v, getField rf key = some v ∧ resultFieldTypeOk key v = false) →
    ∃ msg,
      searchOutcome (UpstreamOutcome.response 200
          (HttpBody.jsonBody (Json.obj respFields)))
        = Except.error ⟨FailureCause.schemaValidation msg⟩ := by
  intro respFields resultsJson rf key hres hmem hkey hbad
  have hfail : ∀ r, parseSearxngResult (Json.obj rf) ≠ Except.ok r := by
    intro r hr
    obtain ⟨v, hv, hok⟩ := parseResult_ok_field rf r hr key hkey
    rcases hbad with hnone | ⟨w, hw, hbadty⟩
    · rw [hv] at hnone; cases hnone
    · rw [hv] at hw
      injection hw with hw
      subst hw
      rw [hok] at hbadty
      cases hbadty
  have hlist := parseResults_fail (Json.obj rf) hfail resultsJson hmem
  have hresp := parseResponse_fail respFields resultsJson hres hlist
  cases hp : parseSearxngResponse (Json.obj respFields) with
  | ok resp => exact absurd hp (hresp resp)
  | error msg => exact ⟨msg, by simp [searchOutcome, is2xx, hp]⟩

/-- Witness for C2 (Scenario E): the single result object in a 200 body
misses its `engine` field, so the whole call fails with a
schema-validation failure. -/
theorem claim_c2_witness :
    ∃ msg,
      searchOutcome (UpstreamOutcome.response 200 (HttpBody.jsonBody (Json.obj
          [("query", Json.str "cats"), ("number_of_results", Json.num 1),
           ("results", Json.arr [Json.obj missingEngineResult])])))
        = Except.error ⟨FailureCause.schemaValidation msg⟩ :=
  claim_c2
    [("query", Json.str "cats"), ("number_of_results", Json.num 1),
     ("results", Json.arr [Json.obj missingEngineResult])]
    [Json.obj missingEngineResult] missingEngineResult "engine"
    rfl (List.mem_singleton.mpr rfl) (by decide) (Or.inl rfl)

/-- C9: the alternate loose formatter returns exactly "No results found."
on an empty or absent results list; otherwise it prepends the header block
(echoed query when present; the `number_of_results` estimate only when
positive) and renders the entries at 1-based positions joined by blank
lines, substituting the "No title" / "No URL" / "No description"
placeholders for absent fields and appending the optional Date line and
the optional Score line (score formatted to two decimals) exactly when
those keys are present. -/
theorem claim_c9 :
    (∀ data : LooseData, data.results.getD [] = [] →
      format_results data = "No results found.") ∧
    (∀ (data : LooseData) (r : LooseResult) (rs : List LooseResult),
      data.results = some (r :: rs) →
      format_results data
        = String.intercalate "\n" (looseHeader data) ++ "\n\n"
          ++ String.intercalate "\n\n"
            ((List.finRange (r :: rs).length).map (fun j =>
              looseEntry (j.1 + 1) ((r :: rs).get j)))) ∧
    (∀ (data : LooseData) (q : String), data.query = some q →
      ∃ rest, looseHeader data = ("Query: " ++ q) :: rest) ∧
    (∀ (data : LooseData) (n : Int), data.number_of_results = some n → 0 < n →
      ("Found approximately " ++ toString n ++ " results") ∈ looseHeader data) ∧
    (∀ (data : LooseData) (n : Int), data.number_of_results = some n → n ≤ 0 →
      looseHeader data
        = (match data.query with
            | some q => ["Query: " ++ q]
            | none => [])) ∧
    (∀ i : Nat, looseEntry i ⟨none, none, none, none, none⟩
      = toString i ++ ". No title\n   URL: No URL\n   No description") ∧
    (∀ (i : Nat) (r : LooseResult), r.publishedDate = none → r.score = none →
      looseEntry i r
        = toString i ++ ". " ++ r.title.getD "No title" ++ "\n   URL: "
          ++ r.url.getD "No URL" ++ "\n   " ++ r.content.getD "No description") ∧
    (∀ (i : Nat) (r : LooseResult) (d : String),
      r.publishedDate = some d → r.score = none →
      looseEntry i r
        = toString i ++ ". " ++ r.title.getD "No title" ++ "\n   URL: "
          ++ r.url.getD "No URL" ++ "\n   " ++ r.content.getD "No description"
          ++ "\n   Date: " ++ d) ∧
    (∀ (i : Nat) (r : LooseResult) (s : ℚ), r.score = some s →
      ∃ base, looseEntry i r = base ++ "\n   Score: " ++ fmt2 s) := by
  refine ⟨?_, ?_, ?_, ?_, ?_, ?_, ?_, ?_, ?_⟩
  · intro data h
    simp [format_results, h]
  · intro data r rs h
    simp only [format_results, h, Option.getD_some]
    rw [enumFrom_map_eq_finRange_map (fun i x => looseEntry i x) 1 (r :: rs)]
    refine congrArg
      (fun t => String.intercalate "\n" (looseHeader data) ++ "\n\n" ++ t) ?_
    refine congrArg (String.intercalate "\n\n") ?_
    apply List.map_congr_left
    intro j _
    rw [Nat.add_comm]
  · intro data q h
    refine ⟨(match data.number_of_results with
      | some n =>
        if 0 < n then ["Found approximately " ++ toString n ++ " results"] else []
      | none => []), ?_⟩
    simp [looseHeader, h]
  · intro data n h hpos
    simp [looseHeader, h, hpos]
  · intro data n h hle
    have hn : ¬ 0 < n := by omega
    simp [looseHeader, h, hn]
  · intro i
    simp [looseEntry, String.append_assoc]
  · intro i r h1 h2
    simp only [looseEntry, h1, h2]
  · intro i r d h1 h2
    simp only [looseEntry, h1, h2]
  · intro i r s h
    simp only [looseEntry, h]
    exact ⟨_, rfl⟩

set_option maxRecDepth 8192 in
/-- Witness for C9: the placeholder on an absent results list, and one
fully rendered entry with header, query echo, positive estimate and a
two-decimal score. -/
theorem claim_c9_witness :
    format_results ⟨some "cats", some 42, none⟩ = "No results found." ∧
    format_results ⟨some "cats", some 42,
        some [⟨some "Cat facts", some "http://a", some "desc", none, some (Rat.divInt 157 50)⟩]⟩
      = "Query: cats\nFound approximately 42 results\n\n1. Cat facts\n   URL: http://a\n   desc\n   Score: 3.14" := by
  refine ⟨claim_c9.1 _ rfl, ?_⟩
  rw [claim_c9.2.1 ⟨some "cats", some 42,
    some [⟨some "Cat facts", some "http://a", some "desc", none, some (Rat.divInt 157 50)⟩]⟩
    ⟨some "Cat facts", some "http://a", some "desc", none, some (Rat.divInt 157 50)⟩ [] rfl]
  rfl

end SearxngMcp
